import Mathlib

/- Shallow embedding of the chunk-streaming, terrain-generation, stamina/physics
and lore-service logic of the game repository (src/game/GameEngine.ts with its
WorldGenerator, the constants module, src/services/geminiService.ts).

Numbers are exact rationals.  The simplex-noise generators and Math.sin are
pure opaque functions and enter as explicit oracle parameters; Math.random is
an explicit stream of draws threaded through the computation in program order;
Math.sqrt enters as an explicit function parameter of the collision resolver. -/

/-- CHUNK_SIZE from the constants module. -/
def CHUNK_SIZE : ℚ := 100

/-- RENDER_DISTANCE from the constants module, used as an integer chunk radius. -/
def RENDER_DISTANCE : ℤ := 5

/-- WATER_LEVEL from the constants module (1.5). -/
def WATER_LEVEL : ℚ := 3/2

/-- STAMINA_MAX from the constants module. -/
def STAMINA_MAX : ℚ := 100

/-- FLIGHT_COST from the constants module. -/
def FLIGHT_COST : ℚ := 25

/-- REGEN_RATE from the constants module. -/
def REGEN_RATE : ℚ := 15

/-- The biome enumeration referenced by the constants module and WorldGenerator. -/
inductive BiomeType
  | PLAINS
  | FOREST
  | DESERT
  | SNOW
  | WATER
  | MOUNTAIN
  | SAKURA
deriving DecidableEq

/-- A stream of Math.random draws. -/
abbrev RStream : Type := ℕ → ℚ

/-- Take one Math.random draw: the value and the remaining stream. -/
def draw1 (r : RStream) : ℚ × RStream := (r 0, fun n => r (n + 1))

/-- Skip k Math.random draws (draws whose values influence nothing we track). -/
def drawN (k : ℕ) (r : RStream) : RStream := fun n => r (n + k)

/-- The module-level noise generators of WorldGenerator (noise2D, continentNoise,
detailNoise) and the Math.sin function, as opaque pure oracles. -/
structure Oracles where
  noise2D : ℚ → ℚ → ℚ
  continentNoise : ℚ → ℚ → ℚ
  detailNoise : ℚ → ℚ → ℚ
  sinF : ℚ → ℚ

/-- Fractional part: x minus Math.floor of x. -/
def fract (x : ℚ) : ℚ := x - (⌊x⌋ : ℚ)

/-- WorldGenerator.seededRandom: fractional part of sin(seed) times 10000. -/
def seededRandom (O : Oracles) (seed : ℚ) : ℚ := fract (O.sinF seed * 10000)

/-- THREE.MathUtils.lerp. -/
def lerp (a b t : ℚ) : ℚ := a + (b - a) * t

/-- WorldGenerator.getHeight before its final coastline-smoothing step:
continent noise biased by 0.15 splits land from ocean; land adds a cubed ridge
term and a roughness term and is clamped to at least WATER_LEVEL + 0.5; ocean
is capped at depth -15. -/
def getHeightPre (O : Oracles) (x z : ℚ) : ℚ :=
  let base := O.continentNoise (x * (3/2000)) (z * (3/2000)) + 3/20
  if base > 0 then
    let h0 := base * 15
    let ridge := 1 - |O.noise2D (x * (1/250)) (z * (1/250))|
    let h1 := h0 + ridge ^ 3 * 45 * base
    let h2 := h1 + O.noise2D (x * (3/100)) (z * (3/100)) * (3/2)
    max h2 (WATER_LEVEL + 1/2)
  else
    max (base * 20) (-15)

/-- The coastline-smoothing branch of WorldGenerator.getHeight: heights strictly
inside (WATER_LEVEL - 1, WATER_LEVEL + 2) are lerped 40 percent toward
WATER_LEVEL + 0.5. -/
def coastBlend (h : ℚ) : ℚ :=
  if h > WATER_LEVEL - 1 ∧ h < WATER_LEVEL + 2 then lerp h (WATER_LEVEL + 1/2) (2/5) else h

/-- WorldGenerator.getHeight. -/
def getHeight (O : Oracles) (x z : ℚ) : ℚ := coastBlend (getHeightPre O x z)

/-- The temperature-classification tail of WorldGenerator.getBiome. -/
def tempClassify (O : Oracles) (x z : ℚ) : BiomeType :=
  let temp := O.noise2D (x * (3/2000)) (z * (3/2000))
  if temp < -(2/5) then .DESERT
  else if temp > 1/2 then .FOREST
  else if temp > 1/5 ∧ temp ≤ 1/2 then .SAKURA
  else .PLAINS

/-- WorldGenerator.getBiome.  The Snow branch consumes one Math.random draw;
by short-circuit evaluation the draw happens only when height exceeds 30. -/
def getBiome (O : Oracles) (x z height : ℚ) (r : RStream) : BiomeType × RStream :=
  if height < WATER_LEVEL + 1/5 then (.WATER, r)
  else if height > 45 then (.MOUNTAIN, r)
  else if height > 30 then
    let d := draw1 r
    if d.1 > 1/2 then (.SNOW, d.2) else (tempClassify O x z, d.2)
  else (tempClassify O x z, r)

/-- The square window of chunk keys that the loading loop of
GameEngine.updateChunks inserts around the observer chunk. -/
def chunkWindow (px pz : ℤ) : Finset (ℤ × ℤ) :=
  Finset.Icc (px - RENDER_DISTANCE) (px + RENDER_DISTANCE) ×ˢ
    Finset.Icc (pz - RENDER_DISTANCE) (pz + RENDER_DISTANCE)

/-- GameEngine.updateChunks acting on the set of loaded chunk keys: first evict
every key whose distance to the observer chunk exceeds RENDER_DISTANCE on
either axis, then load every key of the window that is not already present. -/
def updateChunks (loaded : Finset (ℤ × ℤ)) (px pz : ℤ) : Finset (ℤ × ℤ) :=
  (loaded.filter fun c => ¬(RENDER_DISTANCE < |c.1 - px| ∨ RENDER_DISTANCE < |c.2 - pz|)) ∪
    chunkWindow px pz

/-- The observer chunk coordinate: Math.floor of position over CHUNK_SIZE. -/
def playerChunk (pos : ℚ) : ℤ := ⌊pos / CHUNK_SIZE⌋

/-- The per-tick inputs that reach the stamina flow of GameEngine.updatePhysics:
the sprint and jump key states, the grounded flag from the previous tick, and
the raw elapsed wall-clock milliseconds of the frame. -/
structure TickIn where
  sprint : Bool
  jump : Bool
  onGround : Bool
  elapsedMs : ℚ

/-- The frame-delta clamp of GameEngine.animate: elapsed seconds capped at 0.1. -/
def clampDelta (elapsedMs : ℚ) : ℚ := min (elapsedMs / 1000) (1/10)

/-- The sprint-drain / regeneration step at the top of GameEngine.updatePhysics. -/
def staminaRegen (s : ℚ) (sprint : Bool) (d : ℚ) : ℚ :=
  if sprint = true ∧ s > 0 then max 0 (s - FLIGHT_COST * d * (2/5))
  else if s < STAMINA_MAX then min STAMINA_MAX (s + REGEN_RATE * d)
  else s

/-- The sustained-lift flight condition of the jump branch of
GameEngine.updatePhysics: jump held, airborne, and stamina above 5.  This is
the state in which the lift acceleration and the flight-cost drain apply. -/
def flyingState (jump onGround : Bool) (s : ℚ) : Bool :=
  jump && (!onGround && decide (s > 5))

/-- The complete stamina flow of one GameEngine.updatePhysics call: the
sprint-drain / regeneration step followed by the unclamped flight drain of the
jump branch. -/
def staminaTick (s : ℚ) (sprint jump onGround : Bool) (d : ℚ) : ℚ :=
  let s1 := staminaRegen s sprint d
  if jump = true then
    if onGround = true then s1
    else if s1 > 5 then s1 - FLIGHT_COST * d
    else s1
  else s1

/-- One engine tick of the stamina state, from raw elapsed milliseconds through
the delta clamp of GameEngine.animate. -/
def tickStamina (s : ℚ) (t : TickIn) : ℚ :=
  staminaTick s t.sprint t.jump t.onGround (clampDelta t.elapsedMs)

/-- The isFlying flag emitted in the per-tick stats snapshot built in
GameEngine.animate: not grounded, and stamina below STAMINA_MAX. -/
def isFlyingFlag (onGround : Bool) (s : ℚ) : Bool :=
  !onGround && decide (s < STAMINA_MAX)

/-- The time advance of GameEngine.updateDayNight: add delta times 0.005, and
reset to 0 when the value strictly exceeds 1. -/
def tickTime (t d : ℚ) : ℚ :=
  let t1 := t + d * (1/200)
  if t1 > 1 then 0 else t1

/-- The Obstacle record of WorldGenerator: a circular collider of center (x, z)
and radius r. -/
structure Obstacle where
  x : ℚ
  z : ℚ
  r : ℚ
deriving DecidableEq

/-- The fixed player collision radius of GameEngine.updatePhysics. -/
def playerRadius : ℚ := 7/10

/-- The checkCollision closure of GameEngine.updatePhysics for one obstacle,
acting on the tentative position; sq stands for Math.sqrt.  If the squared
horizontal distance to the obstacle center is below the squared sum of radii,
and the computed distance exceeds the 0.001 guard, push the position directly
away from the center by the penetration depth; otherwise leave it unchanged. -/
def resolveObstacle (sq : ℚ → ℚ) (p : ℚ × ℚ) (o : Obstacle) : ℚ × ℚ :=
  let dx := p.1 - o.x
  let dz := p.2 - o.z
  let distSq := dx * dx + dz * dz
  let minDist := playerRadius + o.r
  if distSq < minDist * minDist then
    let dist := sq distSq
    let push := minDist - dist
    if dist > 1/1000 then (p.1 + dx / dist * push, p.2 + dz / dist * push) else p
  else p

/-- The obstacle-resolution phase of GameEngine.updatePhysics: checkCollision
applied to every obstacle of the gathered neighborhood list, in order, each
correction feeding the next. -/
def resolveObstacles (sq : ℚ → ℚ) (p : ℚ × ℚ) (l : List Obstacle) : ℚ × ℚ :=
  l.foldl (resolveObstacle sq) p

/-- The possible outcomes of one scatter-grid cell in
WorldGenerator.generateChunk. -/
inductive ScatterOut
  | pebble
  | boulder
  | pine
  | oak
  | sakuraTree
  | cactus
  | nothing
deriving DecidableEq

/-- The object-scattering rule cascade of WorldGenerator.generateChunk, applied
to the per-cell pseudo-random value rVal and the sampled biome, in source
order: pebbles (rVal below 0.15, biome neither Water nor Snow), then boulders
(rVal below 0.03, biome not Water), then the biome-gated flora rules. -/
def scatterRule (rVal : ℚ) (b : BiomeType) : ScatterOut :=
  if rVal < 3/20 ∧ b ≠ .WATER ∧ b ≠ .SNOW then .pebble
  else if rVal < 3/100 ∧ b ≠ .WATER then .boulder
  else if b = .FOREST ∧ rVal > 2/5 then (if rVal > 3/4 then .pine else .oak)
  else if b = .SAKURA ∧ rVal > 13/20 then .sakuraTree
  else if b = .PLAINS ∧ rVal > 97/100 then .oak
  else if b = .DESERT ∧ rVal > 24/25 then .cactus
  else .nothing

/-- The accumulator of the scatter loop: the lengths of the geometry lists
gathered per material, the obstacle list, and the Math.random stream. -/
structure ScatterAcc where
  stones : ℕ
  trunks : ℕ
  oakLeaves : ℕ
  pineLeaves : ℕ
  sakuraLeaves : ℕ
  cacti : ℕ
  obstacles : List Obstacle
  rnd : RStream

/-- One cell of the object-scattering double loop of
WorldGenerator.generateChunk: jitter the cell by seeded pseudo-randomness, skip
points at or below WATER_LEVEL + 0.5, sample the biome (possibly consuming a
Math.random draw), and apply the scatter rule cascade.  Each geometry builder
consumes its Math.random draws: a rock consumes a scale draw for pebbles and
boulders plus two rotation draws; a tree consumes one scale draw; a cactus
consumes a height draw and an arm draw. -/
def scatterStep (O : Oracles) (cwx cwz : ℚ) (acc : ScatterAcc) (cell : ℚ × ℚ) : ScatterAcc :=
  let lx := cell.1 + (seededRandom O (cell.1 * 11 + cell.2) - 1/2) * 4
  let lz := cell.2 + (seededRandom O (cell.2 * 13 + cell.1) - 1/2) * 4
  let wx := lx + cwx
  let wz := lz + cwz
  let y := getHeight O wx wz
  if y ≤ WATER_LEVEL + 1/2 then acc
  else
    let br := getBiome O wx wz y acc.rnd
    let rVal := seededRandom O (wx * wz)
    match scatterRule rVal br.1 with
    | .pebble => { acc with stones := acc.stones + 1, rnd := drawN 3 br.2 }
    | .boulder =>
        let s := 4/5 + br.2 0 * (6/5)
        { acc with stones := acc.stones + 1,
                   obstacles := acc.obstacles ++ [⟨wx, wz, s * (4/5)⟩],
                   rnd := drawN 3 br.2 }
    | .pine =>
        { acc with trunks := acc.trunks + 1, pineLeaves := acc.pineLeaves + 1,
                   obstacles := acc.obstacles ++ [⟨wx, wz, 4/5⟩], rnd := drawN 1 br.2 }
    | .oak =>
        { acc with trunks := acc.trunks + 1, oakLeaves := acc.oakLeaves + 1,
                   obstacles := acc.obstacles ++ [⟨wx, wz, 4/5⟩], rnd := drawN 1 br.2 }
    | .sakuraTree =>
        { acc with trunks := acc.trunks + 1, sakuraLeaves := acc.sakuraLeaves + 1,
                   obstacles := acc.obstacles ++ [⟨wx, wz, 3/5⟩], rnd := drawN 1 br.2 }
    | .cactus =>
        { acc with cacti := acc.cacti + 1,
                   obstacles := acc.obstacles ++ [⟨wx, wz, 1/2⟩], rnd := drawN 2 br.2 }
    | .nothing => { acc with rnd := br.2 }

/-- The grass-placement draws of the terrain-vertex loop of
WorldGenerator.generateChunk.  The gate draw only happens when the detail-noise
threshold passes (short-circuit); a placed blade consumes four further draws
(two position jitters, a rotation, a scale). -/
def grassStep (O : Oracles) (b : BiomeType) (y wx wz : ℚ) (r : RStream) : RStream :=
  if y > WATER_LEVEL + 2 ∧ y < 40 then
    let gn := O.detailNoise (wx * (1/5)) (wz * (1/5))
    if b = .PLAINS ∨ b = .FOREST then
      if gn > 1/10 then
        let d := draw1 r
        if d.1 > 7/10 then drawN 4 d.2 else d.2
      else r
    else if b = .SAKURA then
      if gn > 0 then
        let d := draw1 r
        if d.1 > 3/5 then drawN 4 d.2 else d.2
      else r
    else r
  else r

/-- The 33 by 33 vertex grid of the PlaneGeometry of one chunk, in chunk-local
coordinates. -/
def vertexGrid : List (ℚ × ℚ) :=
  (List.range 33).flatMap fun j =>
    (List.range 33).map fun i =>
      ((i : ℚ) * (CHUNK_SIZE / 32) - CHUNK_SIZE / 2,
       (j : ℚ) * (CHUNK_SIZE / 32) - CHUNK_SIZE / 2)

/-- One iteration of the terrain-vertex loop of WorldGenerator.generateChunk:
compute the height from the pure height field and append it to the height
array, then sample the biome and run the grass placement, both of which may
consume Math.random draws. -/
def vertexStep (O : Oracles) (cwx cwz : ℚ) (acc : List ℚ × RStream) (v : ℚ × ℚ) :
    List ℚ × RStream :=
  let wx := v.1 + cwx
  let wz := v.2 + cwz
  let y := getHeight O wx wz
  let br := getBiome O wx wz y acc.2
  (acc.1 ++ [y], grassStep O br.1 y wx wz br.2)

/-- The scatter-grid cells of WorldGenerator.generateChunk: both axes run from
minus CHUNK_SIZE over 2 up to but excluding CHUNK_SIZE over 2 with density 4. -/
def scatterCells : List (ℚ × ℚ) :=
  (List.range 25).flatMap fun i =>
    (List.range 25).map fun j =>
      ((i : ℚ) * 4 - CHUNK_SIZE / 2, (j : ℚ) * 4 - CHUNK_SIZE / 2)

/-- The kinds of meshes a generated chunk can contain. -/
inductive Collider
  | terrain
  | trunks
  | oakLeaves
  | pineLeaves
  | sakuraLeaves
  | cacti
  | stonesMesh
  | grass
  | monolithMesh
deriving DecidableEq

/-- The mergeAndAdd helper of WorldGenerator.generateChunk: a geometry list is
merged into one mesh when nonempty, and yields null otherwise. -/
def mergeAndAdd (count : ℕ) (c : Collider) : Option Collider :=
  if 0 < count then some c else none

/-- The outputs of WorldGenerator.generateChunk that the engine consumes: the
per-vertex terrain height array, the monolith point-of-interest flag, the
obstacle list, the geometry-list lengths, and the collider list returned for
ground raycasts. -/
structure ChunkOut where
  heights : List ℚ
  monolith : Bool
  obstacles : List Obstacle
  stones : ℕ
  trunks : ℕ
  oakLeaves : ℕ
  pineLeaves : ℕ
  sakuraLeaves : ℕ
  cacti : ℕ
  colliders : List Collider

/-- WorldGenerator.generateChunk: run the terrain-vertex loop, decide the
monolith from the chunk seed and the height at the chunk world origin
(registering its obstacle of radius 4 first), run the scatter loop, and return
the collider list holding the terrain mesh and, when at least one stone
geometry was gathered, the single merged stone mesh. -/
def generateChunk (O : Oracles) (cx cz : ℤ) (rnd0 : RStream) : ChunkOut :=
  let cwx : ℚ := (cx : ℚ) * CHUNK_SIZE
  let cwz : ℚ := (cz : ℚ) * CHUNK_SIZE
  let chunkSeed : ℚ := (cx : ℚ) * 49297 + (cz : ℚ) * 92713
  let vres := List.foldl (vertexStep O cwx cwz) (([] : List ℚ), rnd0) vertexGrid
  let hasM : Bool := decide (seededRandom O chunkSeed > 97/100) &&
                     decide (getHeight O cwx cwz > WATER_LEVEL + 2)
  let obs0 : List Obstacle := if hasM then [⟨cwx, cwz, 4⟩] else []
  let sres := List.foldl (scatterStep O cwx cwz) ⟨0, 0, 0, 0, 0, 0, obs0, vres.2⟩ scatterCells
  { heights := vres.1
    monolith := hasM
    obstacles := sres.obstacles
    stones := sres.stones
    trunks := sres.trunks
    oakLeaves := sres.oakLeaves
    pineLeaves := sres.pineLeaves
    sakuraLeaves := sres.sakuraLeaves
    cacti := sres.cacti
    colliders := Collider.terrain :: (mergeAndAdd sres.stones Collider.stonesMesh).toList }

/-- The environment of one geminiService.generateLore call: whether the API
credential is present, the transport outcome (none models a thrown request,
some the returned response text), and the JSON parse of a response text. -/
structure LoreEnv where
  apiKeyPresent : Bool
  transport : Option String
  parse : String → Option (String × String)

/-- The missing-credential placeholder pair of geminiService.generateLore. -/
def signalLostPair : String × String :=
  ("Signal Lost", "Neural link to archive offline. (Missing API Key)")

/-- The catch-branch placeholder pair of geminiService.generateLore. -/
def staticInterferencePair : String × String :=
  ("Static Interference", "The data fragment is corrupted. The monolith remains silent.")

/-- The try block of geminiService.generateLore: a thrown request, an empty
response text, or a failed JSON parse each raise; otherwise the parsed pair is
returned. -/
def loreTryBlock (env : LoreEnv) : Except String (String × String) :=
  match env.transport with
  | none => Except.error "transport failure"
  | some text =>
      if text = "" then Except.error "No response text"
      else
        match env.parse text with
        | none => Except.error "malformed response"
        | some p => Except.ok p

/-- geminiService.generateLore: the missing-credential early return, then the
try block with its catch-all substituting the fixed placeholder pair. -/
def generateLore (env : LoreEnv) : String × String :=
  if env.apiKeyPresent = false then signalLostPair
  else
    match loreTryBlock env with
    | Except.error _ => staticInterferencePair
    | Except.ok p => p

/-- Concrete oracles used to exhibit the Snow-biome boulder. -/
def oraclesSnow : Oracles :=
  ⟨fun _ _ => 1/4, fun _ _ => 1, fun _ _ => 0, fun _ => 1/1000000⟩

/-- Concrete oracles whose pre-blend height at the origin is exactly
WATER_LEVEL + 0.5. -/
def oraclesCoastEdge : Oracles :=
  ⟨fun _ _ => 1, fun _ _ => -(7/50), fun _ _ => 0, fun _ => 0⟩

/-- Concrete oracles whose pre-blend height at the origin is 9/4, strictly
inside the smoothing band and distinct from WATER_LEVEL + 0.5. -/
def oraclesCoastMid : Oracles :=
  ⟨fun _ _ => 1, fun _ _ => -(1/10), fun _ _ => 0, fun _ => 0⟩

/-- Membership in the streaming window is exactly the per-axis distance bound. -/
theorem chunkWindow_mem (px pz : ℤ) (a : ℤ × ℤ) :
    a ∈ chunkWindow px pz ↔
      |a.1 - px| ≤ RENDER_DISTANCE ∧ |a.2 - pz| ≤ RENDER_DISTANCE := by
  simp only [chunkWindow, RENDER_DISTANCE, Finset.mem_product, Finset.mem_Icc, abs_le]
  omega

/-- Claim C1: for every observer position, after one streaming update the set
of loaded chunk keys equals exactly the square window of radius
RENDER_DISTANCE around the observer chunk floor(position / CHUNK_SIZE): every
previously loaded chunk outside the window on either axis has been evicted,
and every coordinate inside the window is loaded. -/
theorem claim_C1 (loaded : Finset (ℤ × ℤ)) (xPos zPos : ℚ) (c : ℤ × ℤ) :
    updateChunks loaded (playerChunk xPos) (playerChunk zPos) =
      chunkWindow (playerChunk xPos) (playerChunk zPos) ∧
    (c ∈ updateChunks loaded (playerChunk xPos) (playerChunk zPos) ↔
      |c.1 - playerChunk xPos| ≤ RENDER_DISTANCE ∧
        |c.2 - playerChunk zPos| ≤ RENDER_DISTANCE) := by
  have hset : updateChunks loaded (playerChunk xPos) (playerChunk zPos) =
      chunkWindow (playerChunk xPos) (playerChunk zPos) := by
    ext a
    simp only [updateChunks, Finset.mem_union, Finset.mem_filter]
    constructor
    · rintro (⟨_, hcond⟩ | h)
      · push_neg at hcond
        exact (chunkWindow_mem _ _ a).mpr hcond
      · exact h
    · intro h
      exact Or.inr h
  refine ⟨hset, ?_⟩
  rw [hset]
  exact chunkWindow_mem _ _ c

/-- The sprint-drain / regeneration step keeps stamina inside the bounds. -/
theorem staminaRegen_bounds (s : ℚ) (sprint : Bool) (d : ℚ)
    (h0 : 0 ≤ s) (h1 : s ≤ STAMINA_MAX) (hd0 : 0 ≤ d) :
    0 ≤ staminaRegen s sprint d ∧ staminaRegen s sprint d ≤ STAMINA_MAX := by
  have hc : 0 ≤ FLIGHT_COST * d * (2/5) := by
    unfold FLIGHT_COST
    positivity
  have hrg : 0 ≤ REGEN_RATE * d := by
    unfold REGEN_RATE
    positivity
  unfold staminaRegen
  split_ifs with hA hB
  · constructor
    · exact le_max_left 0 _
    · exact max_le (by unfold STAMINA_MAX; norm_num) (by linarith)
  · constructor
    · exact le_min (by unfold STAMINA_MAX; norm_num) (by linarith)
    · exact min_le_left _ _
  · exact ⟨h0, h1⟩

/-- The full per-tick stamina flow keeps stamina inside the bounds whenever the
delta respects the 0.1 clamp: the flight drain fires only above the
5-stamina floor and removes at most FLIGHT_COST times 0.1. -/
theorem staminaTick_bounds (s : ℚ) (sprint jump onGround : Bool) (d : ℚ)
    (h0 : 0 ≤ s) (h1 : s ≤ STAMINA_MAX) (hd0 : 0 ≤ d) (hd1 : d ≤ 1/10) :
    0 ≤ staminaTick s sprint jump onGround d ∧
      staminaTick s sprint jump onGround d ≤ STAMINA_MAX := by
  obtain ⟨g0, g1⟩ := staminaRegen_bounds s sprint d h0 h1 hd0
  unfold staminaTick
  dsimp only
  split_ifs with hj hg hfly
  · exact ⟨g0, g1⟩
  · unfold FLIGHT_COST at *
    unfold STAMINA_MAX at *
    constructor <;> linarith
  · exact ⟨g0, g1⟩
  · exact ⟨g0, g1⟩

/-- Folding any tick list with nonnegative elapsed times preserves the stamina
bounds. -/
theorem staminaFold_bounds (ticks : List TickIn) :
    ∀ s : ℚ, 0 ≤ s → s ≤ STAMINA_MAX → (∀ t ∈ ticks, 0 ≤ t.elapsedMs) →
      0 ≤ List.foldl tickStamina s ticks ∧
        List.foldl tickStamina s ticks ≤ STAMINA_MAX := by
  induction ticks with
  | nil =>
      intro s h0 h1 _
      simpa using ⟨h0, h1⟩
  | cons t ts ih =>
      intro s h0 h1 hall
      have he : 0 ≤ t.elapsedMs := hall t (by simp)
      have hd0 : 0 ≤ clampDelta t.elapsedMs := by
        unfold clampDelta
        exact le_min (by positivity) (by norm_num)
      have hd1 : clampDelta t.elapsedMs ≤ 1/10 := min_le_right _ _
      obtain ⟨b0, b1⟩ :=
        staminaTick_bounds s t.sprint t.jump t.onGround (clampDelta t.elapsedMs) h0 h1 hd0 hd1
      rw [List.foldl_cons]
      exact ih (tickStamina s t) b0 b1 fun u hu => hall u (by simp [hu])

/-- Claim C2: for every sequence of physics ticks with arbitrary key-state
inputs and arbitrary (nonnegative) elapsed wall-clock times, starting from
stamina = STAMINA_MAX, the stamina value never leaves the interval
[0, STAMINA_MAX]; in particular the unclamped in-flight drain, possibly in the
same tick as the clamped sprint drain, never drives stamina below 0 thanks to
the 0.1 frame-delta clamp and the 5-stamina flight floor. -/
theorem claim_C2 (ticks : List TickIn) (h : ∀ t ∈ ticks, 0 ≤ t.elapsedMs) :
    0 ≤ List.foldl tickStamina STAMINA_MAX ticks ∧
      List.foldl tickStamina STAMINA_MAX ticks ≤ STAMINA_MAX :=
  staminaFold_bounds ticks STAMINA_MAX (by unfold STAMINA_MAX; norm_num) le_rfl h

/-- Witness for claim C2: one tick holding sprint and jump while airborne, with
a 100 millisecond frame, keeps stamina inside the bounds. -/
theorem claim_C2_witness :
    0 ≤ List.foldl tickStamina STAMINA_MAX [⟨true, true, false, 100⟩] ∧
      List.foldl tickStamina STAMINA_MAX [⟨true, true, false, 100⟩] ≤ STAMINA_MAX :=
  claim_C2 [⟨true, true, false, 100⟩] (by decide)

/-- Counterexample for claim C3: with the observer airborne, the jump input not
held and stamina 50, the emitted isFlying flag is true although the
sustained-lift flying state of physics step 4 is off, so the flag is not the
flying state surfaced by the jump branch. -/
theorem claim_C3_counterexample :
    isFlyingFlag false 50 = true ∧ flyingState false false 50 = false := by
  constructor
  · decide
  · decide

/-- Claim C3 as amended: in the per-tick stats snapshot, the isFlying flag is
true exactly when the observer is airborne and stamina is strictly below
STAMINA_MAX; it is independent of the jump input and of the 5-stamina flight
floor, so it is not equivalent to the sustained-lift state of physics step 4. -/
theorem claim_C3_amended (onGround : Bool) (s : ℚ) :
    isFlyingFlag onGround s = true ↔ (onGround = false ∧ s < STAMINA_MAX) := by
  cases onGround <;> simp [isFlyingFlag]

/-- Counterexample for claim C4: with the tentative position exactly at the
center of a radius-4 obstacle (the monolith collider), the squared distance is
0, the computed distance 0 does not exceed the 0.001 guard, so the resolution
phase leaves the position unchanged and its distance to the obstacle center
stays 0, far below playerRadius + radius minus any reasonable epsilon (here
epsilon one half). -/
theorem claim_C4_counterexample :
    resolveObstacles id ((0 : ℚ), (0 : ℚ)) [⟨0, 0, 4⟩] = ((0 : ℚ), (0 : ℚ)) ∧
    ((resolveObstacles id ((0 : ℚ), (0 : ℚ)) [⟨0, 0, 4⟩]).1 - 0) *
        ((resolveObstacles id ((0 : ℚ), (0 : ℚ)) [⟨0, 0, 4⟩]).1 - 0) +
      ((resolveObstacles id ((0 : ℚ), (0 : ℚ)) [⟨0, 0, 4⟩]).2 - 0) *
        ((resolveObstacles id ((0 : ℚ), (0 : ℚ)) [⟨0, 0, 4⟩]).2 - 0) <
      (playerRadius + 4 - 1/2) * (playerRadius + 4 - 1/2) := by
  have h : resolveObstacles id ((0 : ℚ), (0 : ℚ)) [⟨0, 0, 4⟩] = ((0 : ℚ), (0 : ℚ)) := by
    norm_num [resolveObstacles, resolveObstacle, playerRadius, id]
  refine ⟨h, ?_⟩
  rw [h]
  norm_num [playerRadius]

/-- Claim C4 as amended: for a single obstacle resolution step, whenever the
computed square root of the squared distance is faithful and exceeds the 0.001
guard, the resolved position ends at squared horizontal distance at least
(playerRadius + obstacle.radius) squared from the obstacle center; if the
guard fails (observer essentially at the center) no correction is applied, and
with several obstacles a later correction can re-violate an earlier bound. -/
theorem claim_C4_amended (sq : ℚ → ℚ) (p : ℚ × ℚ) (o : Obstacle)
    (hsq : sq ((p.1 - o.x) * (p.1 - o.x) + (p.2 - o.z) * (p.2 - o.z)) *
             sq ((p.1 - o.x) * (p.1 - o.x) + (p.2 - o.z) * (p.2 - o.z)) =
           (p.1 - o.x) * (p.1 - o.x) + (p.2 - o.z) * (p.2 - o.z))
    (hg : 1/1000 < sq ((p.1 - o.x) * (p.1 - o.x) + (p.2 - o.z) * (p.2 - o.z))) :
    (playerRadius + o.r) * (playerRadius + o.r) ≤
      ((resolveObstacle sq p o).1 - o.x) * ((resolveObstacle sq p o).1 - o.x) +
        ((resolveObstacle sq p o).2 - o.z) * ((resolveObstacle sq p o).2 - o.z) := by
  have hdpos : 0 < sq ((p.1 - o.x) * (p.1 - o.x) + (p.2 - o.z) * (p.2 - o.z)) :=
    lt_trans (by norm_num) hg
  have hdne : sq ((p.1 - o.x) * (p.1 - o.x) + (p.2 - o.z) * (p.2 - o.z)) ≠ 0 :=
    ne_of_gt hdpos
  by_cases hlt : (p.1 - o.x) * (p.1 - o.x) + (p.2 - o.z) * (p.2 - o.z) <
      (playerRadius + o.r) * (playerRadius + o.r)
  · have hres : resolveObstacle sq p o =
        (p.1 + (p.1 - o.x) / sq ((p.1 - o.x) * (p.1 - o.x) + (p.2 - o.z) * (p.2 - o.z)) *
            (playerRadius + o.r -
              sq ((p.1 - o.x) * (p.1 - o.x) + (p.2 - o.z) * (p.2 - o.z))),
         p.2 + (p.2 - o.z) / sq ((p.1 - o.x) * (p.1 - o.x) + (p.2 - o.z) * (p.2 - o.z)) *
            (playerRadius + o.r -
              sq ((p.1 - o.x) * (p.1 - o.x) + (p.2 - o.z) * (p.2 - o.z)))) := by
      unfold resolveObstacle
      dsimp only
      rw [if_pos hlt, if_pos hg]
    rw [hres]
    apply le_of_eq
    have h1 : p.1 + (p.1 - o.x) / sq ((p.1 - o.x) * (p.1 - o.x) + (p.2 - o.z) * (p.2 - o.z)) *
        (playerRadius + o.r - sq ((p.1 - o.x) * (p.1 - o.x) + (p.2 - o.z) * (p.2 - o.z))) - o.x =
        (p.1 - o.x) * (playerRadius + o.r) /
          sq ((p.1 - o.x) * (p.1 - o.x) + (p.2 - o.z) * (p.2 - o.z)) := by
      field_simp
      ring
    have h2 : p.2 + (p.2 - o.z) / sq ((p.1 - o.x) * (p.1 - o.x) + (p.2 - o.z) * (p.2 - o.z)) *
        (playerRadius + o.r - sq ((p.1 - o.x) * (p.1 - o.x) + (p.2 - o.z) * (p.2 - o.z))) - o.z =
        (p.2 - o.z) * (playerRadius + o.r) /
          sq ((p.1 - o.x) * (p.1 - o.x) + (p.2 - o.z) * (p.2 - o.z)) := by
      field_simp
      ring
    rw [h1, h2]
    rw [div_mul_div_comm, div_mul_div_comm, div_add_div_same]
    rw [show (p.1 - o.x) * (playerRadius + o.r) * ((p.1 - o.x) * (playerRadius + o.r)) +
          (p.2 - o.z) * (playerRadius + o.r) * ((p.2 - o.z) * (playerRadius + o.r)) =
        ((p.1 - o.x) * (p.1 - o.x) + (p.2 - o.z) * (p.2 - o.z)) *
          ((playerRadius + o.r) * (playerRadius + o.r)) from by ring]
    rw [hsq]
    have hne2 : (p.1 - o.x) * (p.1 - o.x) + (p.2 - o.z) * (p.2 - o.z) ≠ 0 :=
      hsq ▸ mul_ne_zero hdne hdne
    exact (mul_div_cancel_left₀ _ hne2).symm
  · have hres : resolveObstacle sq p o = p := by
      unfold resolveObstacle
      dsimp only
      rw [if_neg hlt]
    rw [hres]
    exact le_of_not_lt hlt

/-- Witness for claim C4 as amended: the tentative position one unit from a
radius 0.8 obstacle, with a faithful square root, ends at squared distance at
least (0.7 + 0.8) squared after the push. -/
theorem claim_C4_witness :
    (1 : ℚ)/1000 < id (((1 : ℚ) - 0) * ((1 : ℚ) - 0) + ((0 : ℚ) - 0) * ((0 : ℚ) - 0)) ∧
    (playerRadius + 4/5) * (playerRadius + 4/5) ≤
      ((resolveObstacle id ((1 : ℚ), (0 : ℚ)) ⟨0, 0, 4/5⟩).1 - 0) *
          ((resolveObstacle id ((1 : ℚ), (0 : ℚ)) ⟨0, 0, 4/5⟩).1 - 0) +
        ((resolveObstacle id ((1 : ℚ), (0 : ℚ)) ⟨0, 0, 4/5⟩).2 - 0) *
          ((resolveObstacle id ((1 : ℚ), (0 : ℚ)) ⟨0, 0, 4/5⟩).2 - 0) :=
  ⟨by norm_num [id],
    claim_C4_amended id ((1 : ℚ), (0 : ℚ)) ⟨0, 0, 4/5⟩ (by norm_num [id]) (by norm_num [id])⟩

/-- Counterexample for claim C5: in the Snow biome the pebble rule does not
apply (it excludes Snow), so a scatter cell whose pseudo-random value is below
0.03 does produce a boulder together with its obstacle.  With the concrete
oracles the sampled height at the jittered cell is 10101/256 (above 30, at
most 45), the Snow draw succeeds, the cell survives the water cutoff, and the
boulder obstacle of radius scale times 0.8 is registered. -/
theorem claim_C5_counterexample :
    (scatterStep oraclesSnow 0 0 ⟨0, 0, 0, 0, 0, 0, [], fun _ => 1⟩
        ((-50 : ℚ), (-50 : ℚ))).stones = 1 ∧
    (scatterStep oraclesSnow 0 0 ⟨0, 0, 0, 0, 0, 0, [], fun _ => 1⟩
        ((-50 : ℚ), (-50 : ℚ))).obstacles = [⟨-(1299/25), -(1299/25), 8/5⟩] := by
  have habs : |(1 : ℚ)/4| = 1/4 := by
    rw [abs_of_pos]
    norm_num
  have hsr : ∀ s : ℚ, seededRandom oraclesSnow s = 1/100 := fun s => by
    norm_num [seededRandom, oraclesSnow, fract]
  have hh : ∀ x z : ℚ, getHeight oraclesSnow x z = 10101/256 := fun x z => by
    norm_num [getHeight, getHeightPre, coastBlend, lerp, oraclesSnow, WATER_LEVEL, habs]
  constructor <;>
    (norm_num [scatterStep, hsr, hh, getBiome, draw1, drawN, WATER_LEVEL, scatterRule]; rfl)

/-- Claim C5 as amended: the boulder rule fires exactly when the sampled biome
is Snow and the pseudo-random value is below 0.03; in every other biome the
pebble rule (checked first, covering every value below 0.15 outside Water and
Snow) or the Water exclusion shadows it, so outside Snow no boulder and no
boulder obstacle is ever produced. -/
theorem claim_C5_amended (rVal : ℚ) (b : BiomeType) :
    scatterRule rVal b = ScatterOut.boulder ↔ (b = BiomeType.SNOW ∧ rVal < 3/100) := by
  cases b <;> unfold scatterRule <;> split_ifs <;> simp_all <;> linarith

/-- Counterexample for claim C6: with the concrete oracles the pre-blend height
at the origin is exactly WATER_LEVEL + 0.5 = 2 (the land clamp), which lies in
the claimed interval; the blend maps it to itself, so the final height does not
lie strictly between the pre-blend height and WATER_LEVEL + 0.5 in either
order. -/
theorem claim_C6_counterexample :
    (WATER_LEVEL - 1 ≤ getHeightPre oraclesCoastEdge 0 0 ∧
      getHeightPre oraclesCoastEdge 0 0 ≤ WATER_LEVEL + 2) ∧
    getHeight oraclesCoastEdge 0 0 = getHeightPre oraclesCoastEdge 0 0 ∧
    ¬(getHeightPre oraclesCoastEdge 0 0 < getHeight oraclesCoastEdge 0 0 ∧
        getHeight oraclesCoastEdge 0 0 < WATER_LEVEL + 1/2) ∧
    ¬(WATER_LEVEL + 1/2 < getHeight oraclesCoastEdge 0 0 ∧
        getHeight oraclesCoastEdge 0 0 < getHeightPre oraclesCoastEdge 0 0) := by
  have habs : |(1 : ℚ)| = 1 := abs_one
  have hpre : getHeightPre oraclesCoastEdge 0 0 = 2 := by
    norm_num [getHeightPre, oraclesCoastEdge, WATER_LEVEL, habs, max_def]
  have hgh : getHeight oraclesCoastEdge 0 0 = 2 := by
    rw [getHeight, hpre]
    norm_num [coastBlend, lerp, WATER_LEVEL]
  rw [hpre, hgh]
  norm_num [WATER_LEVEL]

/-- Claim C6 as amended: for every (x, z) whose pre-blend height lies strictly
inside (WATER_LEVEL - 1, WATER_LEVEL + 2) (the open interval the code tests)
and differs from WATER_LEVEL + 0.5, the final height of getHeight lies
strictly between the pre-blend height and WATER_LEVEL + 0.5; at the fixed
point WATER_LEVEL + 0.5 itself, and outside the open interval, the final
height equals an endpoint instead. -/
theorem claim_C6_amended (O : Oracles) (x z : ℚ)
    (h1 : WATER_LEVEL - 1 < getHeightPre O x z)
    (h2 : getHeightPre O x z < WATER_LEVEL + 2) :
    (getHeightPre O x z < WATER_LEVEL + 1/2 →
      getHeightPre O x z < getHeight O x z ∧ getHeight O x z < WATER_LEVEL + 1/2) ∧
    (WATER_LEVEL + 1/2 < getHeightPre O x z →
      WATER_LEVEL + 1/2 < getHeight O x z ∧ getHeight O x z < getHeightPre O x z) := by
  have hb : getHeight O x z = lerp (getHeightPre O x z) (WATER_LEVEL + 1/2) (2/5) := by
    unfold getHeight coastBlend
    rw [if_pos]
    exact ⟨h1, h2⟩
  unfold lerp at hb
  unfold WATER_LEVEL at *
  constructor <;> intro hlt <;> constructor <;> rw [hb] <;> linarith

/-- Witness for claim C6 as amended: concrete oracles whose pre-blend height at
the origin is 9/4 (inside the band, above WATER_LEVEL + 0.5); the blended
height lies strictly between WATER_LEVEL + 0.5 and 9/4. -/
theorem claim_C6_witness :
    WATER_LEVEL - 1 < getHeightPre oraclesCoastMid 0 0 ∧
    getHeightPre oraclesCoastMid 0 0 < WATER_LEVEL + 2 ∧
    getHeightPre oraclesCoastMid 0 0 ≠ WATER_LEVEL + 1/2 ∧
    (WATER_LEVEL + 1/2 < getHeight oraclesCoastMid 0 0 ∧
      getHeight oraclesCoastMid 0 0 < getHeightPre oraclesCoastMid 0 0) := by
  have habs : |(1 : ℚ)| = 1 := abs_one
  have hpre : getHeightPre oraclesCoastMid 0 0 = 9/4 := by
    norm_num [getHeightPre, oraclesCoastMid, WATER_LEVEL, habs, max_def]
  have hA : WATER_LEVEL - 1 < getHeightPre oraclesCoastMid 0 0 := by
    rw [hpre]
    norm_num [WATER_LEVEL]
  have hB : getHeightPre oraclesCoastMid 0 0 < WATER_LEVEL + 2 := by
    rw [hpre]
    norm_num [WATER_LEVEL]
  have hC : getHeightPre oraclesCoastMid 0 0 ≠ WATER_LEVEL + 1/2 := by
    rw [hpre]
    norm_num [WATER_LEVEL]
  have hD : WATER_LEVEL + 1/2 < getHeightPre oraclesCoastMid 0 0 := by
    rw [hpre]
    norm_num [WATER_LEVEL]
  exact ⟨hA, hB, hC, (claim_C6_amended oraclesCoastMid 0 0 hA hB).2 hD⟩

/-- Claim C7: generateLore never propagates an error.  A missing credential
resolves to the Signal Lost placeholder pair; every failure of the try block
(thrown transport, empty response text, malformed response) resolves to the
Static Interference placeholder pair; in particular an unreachable lore
service yields the pair with title Static Interference and the corrupted-data
content. -/
theorem claim_C7 (env : LoreEnv) :
    (env.apiKeyPresent = false → generateLore env = signalLostPair) ∧
    (∀ msg, env.apiKeyPresent = true → loreTryBlock env = Except.error msg →
        generateLore env = staticInterferencePair) ∧
    (env.apiKeyPresent = true → env.transport = none →
        generateLore env = staticInterferencePair) := by
  refine ⟨?_, ?_, ?_⟩
  · intro h
    simp [generateLore, h]
  · intro msg hk herr
    simp [generateLore, hk, herr]
  · intro hk ht
    simp [generateLore, hk, loreTryBlock, ht]

/-- Witness for claim C7: with the credential present and the transport
throwing (unreachable service), generateLore returns the Static Interference
placeholder pair. -/
theorem claim_C7_witness :
    generateLore ⟨true, none, fun _ => none⟩ = staticInterferencePair :=
  (claim_C7 ⟨true, none, fun _ => none⟩).2.2 rfl rfl

/-- Folding the maximal clamped delta advances timeOfDay by exactly 1/2000 per
tick as long as the running value stays at most 1 (so the wrap never fires). -/
theorem tickTime_replicate (n : ℕ) :
    ∀ t : ℚ, 0 ≤ t → t + (n : ℚ) * (1/2000) ≤ 1 →
      (List.replicate n ((1 : ℚ)/10)).foldl tickTime t = t + (n : ℚ) * (1/2000) := by
  induction n with
  | zero =>
      intro t _ _
      simp
  | succ n ih =>
      intro t ht hb
      have hn : (0 : ℚ) ≤ (n : ℚ) := Nat.cast_nonneg n
      have hb1 : t + (1 : ℚ)/2000 + (n : ℚ) * (1/2000) ≤ 1 := by
        push_cast at hb
        linarith
      have hle : t + (1 : ℚ)/10 * (1/200) ≤ 1 := by
        have : (0 : ℚ) ≤ (n : ℚ) * (1/2000) := by positivity
        push_cast at hb
        linarith
      have hstep : tickTime t (1/10) = t + 1/2000 := by
        unfold tickTime
        dsimp only
        rw [if_neg (not_lt.mpr hle)]
        norm_num
      rw [List.replicate_succ, List.foldl_cons, hstep, ih (t + 1/2000) (by linarith) hb1]
      push_cast
      ring

/-- Counterexample for claim C8: a reachable sequence of 1600 ticks, each with
the maximal clamped frame delta (clampDelta of 100 milliseconds is exactly
0.1), drives timeOfDay from its initial value 0.2 to exactly 1; the wrap fires
only strictly above 1, so the value 1 is held and emitted, and 1 is not in the
half-open interval [0, 1). -/
theorem claim_C8_counterexample :
    (List.replicate 1600 (clampDelta 100)).foldl tickTime (1/5) = 1 ∧
    ¬ (List.replicate 1600 (clampDelta 100)).foldl tickTime (1/5) < 1 := by
  have hcd : clampDelta 100 = 1/10 := by
    norm_num [clampDelta]
  have hval : (List.replicate 1600 ((1 : ℚ)/10)).foldl tickTime (1/5) = 1 := by
    have h := tickTime_replicate 1600 (1/5) (by norm_num) (by push_cast; norm_num)
    rw [h]
    push_cast
    norm_num
  rw [hcd, hval]
  exact ⟨rfl, lt_irrefl 1⟩

/-- One day-night tick keeps timeOfDay inside the closed interval [0, 1]. -/
theorem tickTime_bounds (t d : ℚ) (ht0 : 0 ≤ t) (hd : 0 ≤ d) :
    0 ≤ tickTime t d ∧ tickTime t d ≤ 1 := by
  unfold tickTime
  dsimp only
  split_ifs with h
  · norm_num
  · have hi : 0 ≤ d * (1/200) := by positivity
    exact ⟨by linarith, le_of_not_lt h⟩

/-- Folding any nonnegative delta sequence keeps timeOfDay inside [0, 1]. -/
theorem tickTimeFold_bounds (ds : List ℚ) :
    ∀ t : ℚ, 0 ≤ t → t ≤ 1 → (∀ d ∈ ds, 0 ≤ d) →
      0 ≤ ds.foldl tickTime t ∧ ds.foldl tickTime t ≤ 1 := by
  induction ds with
  | nil =>
      intro t h0 h1 _
      simpa using ⟨h0, h1⟩
  | cons d ds ih =>
      intro t h0 h1 hall
      obtain ⟨b0, b1⟩ := tickTime_bounds t d h0 (hall d (by simp))
      rw [List.foldl_cons]
      exact ih (tickTime t d) b0 b1 fun u hu => hall u (by simp [hu])

/-- Claim C8 as amended: starting from the initial value 0.2, under every
sequence of nonnegative tick deltas the timeOfDay scalar stays in the closed
interval [0, 1]; it can momentarily equal exactly 1 (which that tick emits in
the stats snapshot), and wraps to 0 only on a tick that pushes it strictly
above 1. -/
theorem claim_C8_amended (ds : List ℚ) (h : ∀ d ∈ ds, 0 ≤ d) :
    0 ≤ ds.foldl tickTime (1/5) ∧ ds.foldl tickTime (1/5) ≤ 1 :=
  tickTimeFold_bounds ds (1/5) (by norm_num) (by norm_num) h

/-- Witness for claim C8 as amended: a single tick with the maximal clamped
delta stays inside [0, 1]. -/
theorem claim_C8_witness :
    0 ≤ [clampDelta 100].foldl tickTime (1/5) ∧
      [clampDelta 100].foldl tickTime (1/5) ≤ 1 :=
  claim_C8_amended [clampDelta 100] (by
    intro d hd
    simp only [List.mem_singleton] at hd
    rw [hd]
    norm_num [clampDelta])

/-- The heights component of the terrain-vertex fold is the pure map of the
height field over the grid, independent of the Math.random stream component of
the accumulator. -/
theorem vertexFold_heights (O : Oracles) (cwx cwz : ℚ) :
    ∀ (vs : List (ℚ × ℚ)) (acc : List ℚ × RStream),
      (List.foldl (vertexStep O cwx cwz) acc vs).1 =
        acc.1 ++ vs.map fun v => getHeight O (v.1 + cwx) (v.2 + cwz) := by
  intro vs
  induction vs with
  | nil =>
      intro acc
      simp
  | cons v vs ih =>
      intro acc
      rw [List.foldl_cons, ih]
      simp [vertexStep]

/-- The height array of a generated chunk is the pure map of the height field
over the vertex grid. -/
theorem generateChunk_heights (O : Oracles) (cx cz : ℤ) (rnd : RStream) :
    (generateChunk O cx cz rnd).heights =
      vertexGrid.map fun v =>
        getHeight O (v.1 + (cx : ℚ) * CHUNK_SIZE) (v.2 + (cz : ℚ) * CHUNK_SIZE) := by
  unfold generateChunk
  dsimp only
  rw [vertexFold_heights]
  simp

/-- Claim C9: chunk generation is reproducible.  The per-vertex terrain height
array and the monolith point-of-interest flag of generateChunk are independent
of the Math.random stream (the only nondeterminism), so two generations of the
same chunk agree on both; and the monolith flag holds exactly when the seeded
draw of the chunk seed cx * 49297 + cz * 92713 exceeds 0.97 and the height at
the chunk world origin exceeds WATER_LEVEL + 2.  Determinism of getHeight
itself is structural: it is a pure function of its arguments. -/
theorem claim_C9 (O : Oracles) (cx cz : ℤ) (r1 r2 : RStream) :
    (generateChunk O cx cz r1).heights = (generateChunk O cx cz r2).heights ∧
    (generateChunk O cx cz r1).monolith = (generateChunk O cx cz r2).monolith ∧
    ((generateChunk O cx cz r1).monolith = true ↔
      (seededRandom O ((cx : ℚ) * 49297 + (cz : ℚ) * 92713) > 97/100 ∧
        getHeight O ((cx : ℚ) * CHUNK_SIZE) ((cz : ℚ) * CHUNK_SIZE) > WATER_LEVEL + 2)) := by
  refine ⟨?_, rfl, ?_⟩
  · rw [generateChunk_heights, generateChunk_heights]
  · have hm : (generateChunk O cx cz r1).monolith =
        (decide (seededRandom O ((cx : ℚ) * 49297 + (cz : ℚ) * 92713) > 97/100) &&
          decide (getHeight O ((cx : ℚ) * CHUNK_SIZE) ((cz : ℚ) * CHUNK_SIZE) >
            WATER_LEVEL + 2)) := rfl
    rw [hm]
    simp

/-- Claim C10: the collider list of every generated chunk is the terrain mesh
followed by the single merged stone mesh exactly when at least one stone was
scattered, and nothing else: never tree trunks, leaves, cacti, grass, or the
monolith.  Since the ground raycast of GameEngine.updatePhysics intersects
only this list, only terrain and stones can act as ground. -/
theorem claim_C10 (O : Oracles) (cx cz : ℤ) (rnd : RStream) :
    (generateChunk O cx cz rnd).colliders =
      Collider.terrain ::
        (if (generateChunk O cx cz rnd).stones ≠ 0 then [Collider.stonesMesh] else []) := by
  unfold generateChunk
  dsimp only
  generalize (List.foldl
      (scatterStep O ((cx : ℚ) * CHUNK_SIZE) ((cz : ℚ) * CHUNK_SIZE))
      ⟨0, 0, 0, 0, 0, 0,
        if (decide (seededRandom O ((cx : ℚ) * 49297 + (cz : ℚ) * 92713) > 97/100) &&
            decide (getHeight O ((cx : ℚ) * CHUNK_SIZE) ((cz : ℚ) * CHUNK_SIZE) >
              WATER_LEVEL + 2)) = true
        then [⟨(cx : ℚ) * CHUNK_SIZE, (cz : ℚ) * CHUNK_SIZE, 4⟩] else [],
        (List.foldl (vertexStep O ((cx : ℚ) * CHUNK_SIZE) ((cz : ℚ) * CHUNK_SIZE))
          (([] : List ℚ), rnd) vertexGrid).2⟩
      scatterCells).stones = n
  cases n with
  | zero => simp [mergeAndAdd]
  | succ k => simp [mergeAndAdd]
